import Mathlib

/-!
# Verification of the music-planner generation job orchestration layer

Shallow embedding of the generation-orchestration core of the repository:

* the output parser used by `api_generate` / `api_create_artist`
  (`src/dashboard/app.py`) and `run_generate` (`src/telegram_bot.py`);
* the synchronous generation coordinator `api_generate` and its
  `INSERT OR REPLACE` persistence into the `songs` table;
* the async artist-photo job manager (`run_photo_generation`,
  `api_generate_artist_photos`, `api_get_photo_job`,
  `api_select_artist_photo`, `api_delete_photo_job`);
* the per-actor concurrency guard of the Telegram bot
  (`active_generations`, `generate_song`).

Process output text is represented as the list of its lines
(`List String`); this is faithful because every marker pattern is
line-local (neither the marker literals nor the regex `.` / `\d`
character classes can cross a newline).  All character scanning is done
by structural recursion over `List Char` so that every definition
evaluates inside the kernel.
-/

namespace MusicPlanner

/-! ## Character-level scanning primitives -/

/-- Remainder of `cs` after the first occurrence of the pattern `pat`,
or `none` when `pat` does not occur.  This is the position at which
`re.search` places the capture group that follows the literal marker. -/
def findMarkerTail (pat : List Char) : List Char → Option (List Char)
  | [] => none
  | c :: cs =>
    if pat.isPrefixOf (c :: cs) then some ((c :: cs).drop pat.length)
    else findMarkerTail pat cs

/-- The characters of `cs` strictly before the first occurrence of `pat`
(all of `cs` when `pat` does not occur).  This is Python's
`cs.split(pat)[0]`. -/
def upToMarker (pat : List Char) : List Char → List Char
  | [] => []
  | c :: cs =>
    if pat.isPrefixOf (c :: cs) then []
    else c :: upToMarker pat cs

/-- Python `int()` of a non-empty decimal digit string. -/
def digitsToNat (ds : List Char) : Nat :=
  ds.foldl (fun n c => 10 * n + (c.toNat - 48)) 0

/-- Python `str.strip()`: drop leading and trailing whitespace. -/
def stripChars (cs : List Char) : List Char :=
  ((cs.dropWhile Char.isWhitespace).reverse.dropWhile Char.isWhitespace).reverse

/-! ## Point-marker extraction (dashboard, `app.py`)

`api_generate` and `api_create_artist` extract point markers with
`re.search(r'KEY=(.+)', text)` resp. `re.search(r'SONG_ID=(\d+)', text)`:
the **leftmost** (first) match wins, the captured value is the non-empty
remainder of the line after the marker literal. -/

/-- `re.search(r'MARKER(.+)', line)` restricted to one line: the value is
everything after the first occurrence of the marker on the line; the
match requires that remainder to be non-empty (`.+`).  When the only
occurrence sits at the end of the line there is no match. -/
def afterFirstMarker (marker line : String) : Option String :=
  match findMarkerTail marker.toList line.toList with
  | none => none
  | some rest => if rest.isEmpty then none else some (String.mk rest)

/-- `re.search(r'MARKER(.+)', stdout)` over the whole captured text: the
first line containing a match supplies the value. -/
def searchMarkerValue (marker : String) : List String → Option String
  | [] => none
  | l :: ls =>
    match afterFirstMarker marker l with
    | some v => some v
    | none => searchMarkerValue marker ls

/-- `re.search(r'SONG_ID=(\d+)', line)` on one line: the leftmost
occurrence of the literal that is directly followed by a digit; the
value is the maximal digit run after it.  Occurrences followed by a
non-digit are skipped, exactly as the regex engine resumes scanning. -/
def digitsAfterMarker (pat : List Char) : List Char → Option (List Char)
  | [] => none
  | c :: cs =>
    if pat.isPrefixOf (c :: cs) then
      let ds := ((c :: cs).drop pat.length).takeWhile Char.isDigit
      if ds.isEmpty then digitsAfterMarker pat cs else some ds
    else digitsAfterMarker pat cs

/-- `re.search(r'SONG_ID=(\d+)', stdout)` followed by `int(...)`. -/
def searchSongId : List String → Option Nat
  | [] => none
  | l :: ls =>
    match digitsAfterMarker "SONG_ID=".toList l.toList with
    | some ds => some (digitsToNat ds)
    | none => searchSongId ls

/-- `re.search(r'AUDIO_FILE=(.+)', stdout)` in `api_generate`. -/
def searchAudioFile (lines : List String) : Option String :=
  searchMarkerValue "AUDIO_FILE=" lines

/-- `re.search(r'ARTIST_FILE=(.+)', stdout)` in `api_create_artist`. -/
def searchArtistFile (lines : List String) : Option String :=
  searchMarkerValue "ARTIST_FILE=" lines

/-! ## Reference semantics from the spec: last occurrence wins -/

/-- Modelled from the spec: the value carried by the **last** occurrence
of `pat` in one line ("if it appears more than once, the last occurrence
wins").  Not part of the source; used only to compare the implemented
parser with the specified policy. -/
def afterLastMarker (pat : List Char) : List Char → Option (List Char)
  | [] => none
  | c :: cs =>
    match afterLastMarker pat cs with
    | some v => some v
    | none =>
      if pat.isPrefixOf (c :: cs) then some ((c :: cs).drop pat.length)
      else none

/-- Modelled from the spec: the value of the last occurrence of a point
marker in the whole text (latest line containing the marker, last
occurrence within it). -/
def lastOccurrenceValue (marker : String) : List String → Option String
  | [] => none
  | l :: ls =>
    match lastOccurrenceValue marker ls with
    | some v => some v
    | none => (afterLastMarker marker.toList l.toList).map String.mk

/-! ## Multi-line lyrics payload

`api_generate` extracts lyrics with
`re.search(r'LYRICS_START(.+?)LYRICS_END', stdout, re.DOTALL)` and then
`.strip()`: the group starts after the first `LYRICS_START` and, being
lazy with at least one character, ends before the first subsequent
`LYRICS_END` (expanding past it when the gap would be empty). -/

/-- Join captured lines back into the flat text `re.DOTALL` scans. -/
def joinLines : List String → List Char
  | [] => []
  | [l] => l.toList
  | l :: ls => l.toList ++ '\n' :: joinLines ls

/-- The lazy group of `LYRICS_START(.+?)LYRICS_END` taken from the text
after the first `LYRICS_START`, already stripped. -/
def lyricsGroup (rest : List Char) : Option String :=
  match findMarkerTail "LYRICS_END".toList rest with
  | none => none
  | some afterEnd =>
    let body := upToMarker "LYRICS_END".toList rest
    if body.isEmpty then
      match findMarkerTail "LYRICS_END".toList afterEnd with
      | none => none
      | some _ =>
        some (String.mk (stripChars ("LYRICS_END".toList ++
          upToMarker "LYRICS_END".toList afterEnd)))
    else some (String.mk (stripChars body))

/-- `re.search(r'LYRICS_START(.+?)LYRICS_END', stdout, re.DOTALL)`
with `.strip()` applied to the group, `none` when there is no match. -/
def extractLyrics (lines : List String) : Option String :=
  match findMarkerTail "LYRICS_START".toList (joinLines lines) with
  | none => none
  | some rest => lyricsGroup rest

/-! ## Synchronous generation coordinator (`api_generate`, `app.py`)

The coordinator runs the generator with `subprocess.run(..., timeout=600)`.
The three outcomes of that call — normal return with captured output,
`subprocess.TimeoutExpired`, any other exception — are the constructors
of `Invocation`.  The captured standard output is carried as its list of
lines. -/

/-- Outcome of one `subprocess.run` call on `generate.sh`. -/
inductive Invocation where
  | ran (stdoutLines : List String) (returncode : Int)
  | timedOut
  | raised (msg : String)

/-- One row of the `songs` table, restricted to the columns the
coordinator writes (`id, user_id, artist, concept, lyrics, file_path,
tags, mode`); `id` is the primary key. -/
structure SongRow where
  id : Nat
  user_id : Nat
  artist : String
  concept : String
  lyrics : String
  file_path : String
  tags : String
  mode : String
deriving Repr, DecidableEq

/-- The JSON body `api_generate` answers with, plus the HTTP status. -/
structure GenerateResponse where
  httpStatus : Nat
  success : Bool
  errorMsg : Option String
  audio_file : Option String
deriving Repr, DecidableEq

/-- SQLite `INSERT OR REPLACE` keyed by the `songs` primary key `id`:
any existing row with the same `id` is deleted and the new row stored. -/
def insertOrReplaceSong (songs : List SongRow) (row : SongRow) : List SongRow :=
  songs.filter (fun s => s.id != row.id) ++ [row]

/-- `api_generate` (`app.py`): invoke the generator, extract `SONG_ID`
and `AUDIO_FILE` from stdout, and persist an `INSERT OR REPLACE` row in
`songs` exactly when both markers matched; on `TimeoutExpired` or any
other exception answer HTTP 500 without touching the table.  The state
is the `songs` table. -/
def api_generate (songs : List SongRow) (userId : Nat)
    (artist concept : Option String) (mode : String)
    (inv : Invocation) : GenerateResponse × List SongRow :=
  match inv with
  | .timedOut =>
    ({ httpStatus := 500, success := false,
       errorMsg := some "Generation timed out", audio_file := none }, songs)
  | .raised msg =>
    ({ httpStatus := 500, success := false,
       errorMsg := some msg, audio_file := none }, songs)
  | .ran out rc =>
    let af := searchAudioFile out
    let songs' :=
      match searchSongId out, af with
      | some sid, some audio =>
        insertOrReplaceSong songs
          { id := sid, user_id := userId,
            artist := artist.getD "", concept := concept.getD "",
            lyrics := (extractLyrics out).getD "",
            file_path := audio, tags := "", mode := mode }
      | _, _ => songs
    ({ httpStatus := 200, success := rc == 0,
       errorMsg := none, audio_file := af }, songs')

/-! ## Telegram bot: output handling and the per-actor guard
(`telegram_bot.py`) -/

/-- `re.sub(r'\x1b\[[0-9;]*m', '', output)`: drop every terminal color
escape sequence, keep everything else verbatim (fuel-indexed so that the
recursion is structural). -/
def stripAnsiAux : Nat → List Char → List Char
  | 0, cs => cs
  | _ + 1, [] => []
  | fuel + 1, c :: cs =>
    if c == '\x1b' then
      match cs with
      | '[' :: rest =>
        let params := rest.takeWhile (fun d => d.isDigit || d == ';')
        match rest.drop params.length with
        | 'm' :: tl => stripAnsiAux fuel tl
        | _ => c :: stripAnsiAux fuel cs
      | _ => c :: stripAnsiAux fuel cs
    else c :: stripAnsiAux fuel cs

/-- ANSI color stripping as performed before any Telegram reply. -/
def stripAnsi (cs : List Char) : List Char :=
  stripAnsiAux cs.length cs

/-- The Telegram-side truncation of long outputs
(`clean[:1500] + "\n...\n" + clean[-1500:]` when over 3500 chars). -/
def truncateOutput (cs : List Char) : List Char :=
  if cs.length > 3500 then
    cs.take 1500 ++ "\n...\n".toList ++ cs.drop (cs.length - 1500)
  else cs

/-- One line of `run_generate`'s audio extraction: when
`'AUDIO_FILE=' in line`, the value is `line.split('AUDIO_FILE=')[1]`
(the text between the first occurrence and the next occurrence or line
end) stripped; it is kept only when non-empty and the named file exists
on disk (`os.path.exists`, supplied as the oracle `fileExists`). -/
def lineAudioValue (fileExists : String → Bool) (line : String) : Option String :=
  match findMarkerTail "AUDIO_FILE=".toList line.toList with
  | none => none
  | some rest =>
    let v := String.mk (stripChars (upToMarker "AUDIO_FILE=".toList rest))
    if v != "" && fileExists v then some v else none

/-- `run_generate`'s scan of the combined output for audio files, in
line order. -/
def extractAudioFiles (fileExists : String → Bool) (lines : List String) :
    List String :=
  lines.filterMap (lineAudioValue fileExists)

/-- `run_generate` (`telegram_bot.py`): run the generator, collect the
existing audio files named in the combined output and clean the text for
display; `TimeoutExpired` and other exceptions are caught and turned into
message strings with no audio files.  Returns
(clean output, first audio file or none, all audio files), with the
combined stdout+stderr text given as its list of lines. -/
def run_generate (fileExists : String → Bool) (inv : Invocation) :
    String × Option String × List String :=
  match inv with
  | .ran outLines _ =>
    let files := extractAudioFiles fileExists outLines
    (String.mk (truncateOutput (stripAnsi (joinLines outLines))),
      files.head?, files)
  | .timedOut => ("❌ Generation timed out (10 min limit)", none, [])
  | .raised msg => ("❌ Error: " ++ msg, none, [])

/-- Accumulator of `parse_args`: collected arguments, pending token,
quote state. -/
structure ParseState where
  args : List String
  current : List Char
  inQuotes : Bool
  quoteChar : Char
deriving Repr, DecidableEq

/-- One character step of `parse_args` (`telegram_bot.py`), a literal
transcription of its `for char in text` body. -/
def parseArgsStep (st : ParseState) (c : Char) : ParseState :=
  if c == '"' || c == '\'' then
    if !st.inQuotes then
      { st with inQuotes := true, quoteChar := c }
    else if c == st.quoteChar then
      { args := if st.current.isEmpty then st.args
                else st.args ++ [String.mk st.current],
        current := [], inQuotes := false, quoteChar := ' ' }
    else { st with current := st.current ++ [c] }
  else if c == ' ' && !st.inQuotes then
    if st.current.isEmpty then st
    else { st with args := st.args ++ [String.mk st.current], current := [] }
  else { st with current := st.current ++ [c] }

/-- `parse_args`: split a command text into arguments, honouring single
and double quotes. -/
def parse_args (text : List Char) : List String :=
  let fin := text.foldl parseArgsStep ⟨[], [], false, ' '⟩
  if fin.current.isEmpty then fin.args else fin.args ++ [String.mk fin.current]

/-- `' '.join(context.args)`. -/
def joinSpace : List String → List Char
  | [] => []
  | [x] => x.toList
  | x :: xs => x.toList ++ ' ' :: joinSpace xs

/-- The `active_generations` map of the bot, reduced to its key set: the
actors with a generation in flight (the stored timestamp is never read
for the admission decision). -/
abbrev Guard := List Nat

/-- `active_generations.pop(user_id, None)`: remove the actor's in-flight
marker, a no-op when absent. -/
def guardRelease (g : Guard) (userId : Nat) : Guard :=
  g.filter (fun u => u != userId)

/-- The replies `generate_song` can produce, keeping only the shape
relevant to the guard protocol.  `raisedUncaught` stands for an
exception that escapes the handler because it is thrown outside the
`try` block. -/
inductive BotReply where
  | busy
  | usage
  | needArtistConcept
  | done (summary : String) (sentAudio : Bool)
  | errorReply (msg : String)
  | raisedUncaught (msg : String)

/-- `generate_song` (`telegram_bot.py`): reject with a busy reply when
the actor already has a generation in flight; otherwise validate the
arguments, set the in-flight marker
(`active_generations[user_id] = datetime.now()`), await the
"Generating: ..." announcement reply, and only then run the generation
inside `try ... finally active_generations.pop(user_id, None)`.
`announceRaised = some msg` models an exception raised by the
announcement `reply_text` — it sits after the marker assignment and
**before** the `try`, so it escapes with the marker still set;
`sendRaised = some msg` models an exception raised inside the `try`
block while replying or sending audio (caught by the `except` arm, and
the `finally` arm still releases the marker). -/
def generate_song (g : Guard) (userId : Nat) (ctxArgs : List String)
    (fileExists : String → Bool) (inv : Invocation)
    (announceRaised sendRaised : Option String) : Guard × BotReply :=
  if userId ∈ g then (g, .busy)
  else if ctxArgs.isEmpty then (g, .usage)
  else if (parse_args (joinSpace ctxArgs)).length < 2 then
    (g, .needArtistConcept)
  else
    let gMarked := g ++ [userId]
    match announceRaised with
    | some msg => (gMarked, .raisedUncaught msg)
    | none =>
      let reply :=
        match sendRaised with
        | some msg => BotReply.errorReply msg
        | none =>
          let (out, _, files) := run_generate fileExists inv
          BotReply.done out (!files.isEmpty)
      (guardRelease gMarked userId, reply)

/-! ## Async artist-photo job manager (`app.py`)

One row of `artist_photo_jobs`, restricted to the columns the job
endpoints read or write.  `status` is the raw TEXT column (the schema
declares `DEFAULT 'pending'`, but `api_generate_artist_photos` inserts
the literal `'generating'`).  `photo_paths` is the JSON-encoded artifact
list (`none` = SQL NULL), `completed_at` records whether the completion
timestamp has been set.  The appearance option columns are irrelevant to
every claim and omitted. -/
structure PhotoJob where
  id : Nat
  user_id : Nat
  artist_filename : Option String
  status : String
  photo_paths : Option (List String)
  selected_photo : Option String
  error : Option String
  completed_at : Bool
deriving Repr, DecidableEq

/-- Lookup of a job row by primary key (`WHERE id = ?`). -/
def findJob (db : List PhotoJob) (jobId : Nat) : Option PhotoJob :=
  db.find? (fun j => j.id == jobId)

/-- `UPDATE artist_photo_jobs SET ... WHERE id = ?`: rewrite the rows
whose `id` matches. -/
def updateJobRow (db : List PhotoJob) (jobId : Nat) (f : PhotoJob → PhotoJob) :
    List PhotoJob :=
  db.map (fun j => if j.id == jobId then f j else j)

/-- Destination filename of candidate `i` (0-based):
`f"job_{job_id}_option_{i+1}.png"`. -/
def destFilename (jobId i : Nat) : String :=
  "job_" ++ Nat.repr jobId ++ "_option_" ++ Nat.repr (i + 1) ++ ".png"

/-- The `generated_paths` list built by `run_photo_generation`'s
`for i in range(4)` loop: candidate `i` is one `generate(...)` call,
modelled by `attempts i` (`none` = the call raised, `some src` = it
returned source path `src`); a successful candidate is copied to
`destFilename jobId i` and appended, a failed one is skipped with
`continue`, never aborting the loop. -/
def generatedPaths (jobId : Nat) (attempts : Nat → Option String) :
    List String :=
  (List.range 4).filterMap fun i =>
    (attempts i).map fun _ => destFilename jobId i

/-- The final UPDATE of `run_photo_generation` applied to the job's row:
with a non-empty path list the job becomes `completed` and stores the
list; with an empty one it becomes `failed` with error
`'All generations failed'`.  Both set the completion timestamp and touch
nothing else. -/
def finalizeRow (paths : List String) (j : PhotoJob) : PhotoJob :=
  if paths.isEmpty then
    { j with status := "failed", error := some "All generations failed",
             completed_at := true }
  else
    { j with status := "completed", photo_paths := some paths,
             completed_at := true }

/-- The final UPDATE of `run_photo_generation` on the whole table
(`WHERE id = ?`). -/
def finalizeJob (db : List PhotoJob) (jobId : Nat) (paths : List String) :
    List PhotoJob :=
  updateJobRow db jobId (finalizeRow paths)

/-- `run_photo_generation` (database effect): run the four candidate
attempts and finalize the job row.  The copies into the photo directory
are accounted separately in `Sys.step`. -/
def run_photo_generation (db : List PhotoJob) (jobId : Nat)
    (attempts : Nat → Option String) : List PhotoJob :=
  finalizeJob db jobId (generatedPaths jobId attempts)

/-- The `except` arm of `run_photo_generation`'s outer `try`, applied to
the job's row: the worker raised outside the per-candidate loop and the
job is marked `failed` with the exception text. -/
def crashRow (msg : String) (j : PhotoJob) : PhotoJob :=
  { j with status := "failed", error := some msg, completed_at := true }

/-- The `except` arm's UPDATE on the whole table. -/
def crashPhotoGeneration (db : List PhotoJob) (jobId : Nat) (msg : String) :
    List PhotoJob :=
  updateJobRow db jobId (crashRow msg)

/-- The freshly inserted row of `api_generate_artist_photos`: status is
the literal `'generating'`, every result column still NULL. -/
def newPhotoJob (jobId userId : Nat) (af : Option String) : PhotoJob :=
  { id := jobId, user_id := userId, artist_filename := af,
    status := "generating", photo_paths := none, selected_photo := none,
    error := none, completed_at := false }

/-- Outcome of `api_get_photo_job`. -/
inductive GetJobResult where
  | notFound
  | ok (job : PhotoJob)
deriving Repr, DecidableEq

/-- `api_get_photo_job`: `SELECT * WHERE id = ? AND user_id = ?`, 404
when no such row.  A row owned by someone else is indistinguishable from
an absent row. -/
def api_get_photo_job (db : List PhotoJob) (caller jobId : Nat) :
    GetJobResult :=
  match db.find? (fun j => j.id == jobId && j.user_id == caller) with
  | none => .notFound
  | some j => .ok j

/-- Outcome of `api_select_artist_photo`: 404, the two 400 bodies, or
success. -/
inductive SelectResult where
  | notFound
  | noPhoto
  | invalidPhoto
  | ok (photo : String)
deriving Repr, DecidableEq

/-- `api_select_artist_photo`: the job is fetched with
`WHERE id = ? AND user_id = ? AND status = 'completed'` (404 otherwise);
the request must carry a truthy `photo` that is a member of the job's
`photo_paths`; only then is `selected_photo` updated.  The collaborator
update of the linked artist record is outside the job table and not
modelled.  Returns the outcome and the resulting table. -/
def api_select_artist_photo (db : List PhotoJob) (caller jobId : Nat)
    (photo : Option String) : SelectResult × List PhotoJob :=
  match db.find? (fun j =>
      j.id == jobId && j.user_id == caller && j.status == "completed") with
  | none => (.notFound, db)
  | some job =>
    match photo with
    | none => (.noPhoto, db)
    | some p =>
      if p = "" then (.noPhoto, db)
      else if p ∈ job.photo_paths.getD [] then
        (.ok p, updateJobRow db jobId fun j => { j with selected_photo := some p })
      else (.invalidPhoto, db)

/-- Outcome of `api_delete_photo_job`. -/
inductive DeleteResult where
  | notFound
  | ok
deriving Repr, DecidableEq

/-- `api_delete_photo_job`: fetch with `WHERE id = ? AND user_id = ?`
(404 otherwise); for each listed photo unlink the file when it exists
(`if photo_path.exists(): photo_path.unlink()` — a missing file is
skipped silently); then delete the row.  The photo directory is the
list `fs` of existing filenames.  Returns (outcome, table, directory). -/
def api_delete_photo_job (db : List PhotoJob) (fs : List String)
    (caller jobId : Nat) : DeleteResult × List PhotoJob × List String :=
  match db.find? (fun j => j.id == jobId && j.user_id == caller) with
  | none => (.notFound, db, fs)
  | some job =>
    let photos := job.photo_paths.getD []
    (.ok, db.filter (fun j => j.id != jobId),
      fs.filter (fun f => !photos.contains f))

/-! ## The job system as a transition system

`api_generate_artist_photos` inserts the row and immediately dispatches
exactly one background worker (`threading.Thread(target=run_photo_generation)`)
for it.  `Sys` keeps the job table, the photo directory, and the ids of
dispatched workers that have not yet run; an `Op` is one atomic
interaction of a request handler or a worker with the shared state. -/
structure Sys where
  db : List PhotoJob
  fs : List String
  workers : List Nat

/-- The initial state: empty table, empty photo directory, no worker. -/
def initSys : Sys := ⟨[], [], []⟩

/-- The operations of the job API surface together with the two ways a
dispatched worker can finish (`runWorker`: the worker body ran to its
final UPDATE; `crashWorker`: it raised outside the candidate loop). -/
inductive Op where
  | create (newId userId : Nat) (af : Option String)
  | runWorker (jobId : Nat) (attempts : Nat → Option String)
  | crashWorker (jobId : Nat) (msg : String)
  | select (caller jobId : Nat) (photo : Option String)
  | delete (caller jobId : Nat)

/-- One atomic step.  `create` inserts the `'generating'` row under a
fresh autoincrement id and dispatches its worker; each worker fires at
most once; a worker whose job row was deleted meanwhile still copies its
files but its UPDATE matches no row. -/
def step (s : Sys) : Op → Sys
  | .create newId userId af =>
    if s.db.any (fun j => j.id == newId) then s
    else { db := s.db ++ [newPhotoJob newId userId af], fs := s.fs,
           workers := s.workers ++ [newId] }
  | .runWorker jobId attempts =>
    if jobId ∈ s.workers then
      { db := run_photo_generation s.db jobId attempts,
        fs := s.fs ++ generatedPaths jobId attempts,
        workers := s.workers.filter (fun w => w != jobId) }
    else s
  | .crashWorker jobId msg =>
    if jobId ∈ s.workers then
      { db := crashPhotoGeneration s.db jobId msg, fs := s.fs,
        workers := s.workers.filter (fun w => w != jobId) }
    else s
  | .select caller jobId photo =>
    { s with db := (api_select_artist_photo s.db caller jobId photo).2 }
  | .delete caller jobId =>
    let (_, db', fs') := api_delete_photo_job s.db s.fs caller jobId
    { db := db', fs := fs', workers := s.workers }

/-- Run a sequence of operations from the initial state. -/
def runOps (ops : List Op) : Sys :=
  ops.foldl step initSys

/-- Rank of a status in the specified lifecycle order. -/
def statusRank (st : String) : Nat :=
  if st = "pending" then 0 else if st = "generating" then 1 else 2

/-- Terminal statuses of the job state machine. -/
def isTerminal (st : String) : Prop :=
  st = "completed" ∨ st = "failed"

/-! ## Row-lookup lemmas -/

theorem mem_of_findJob {db : List PhotoJob} {id : Nat} {j : PhotoJob}
    (h : findJob db id = some j) : j ∈ db ∧ j.id = id := by
  refine ⟨List.mem_of_find?_eq_some h, ?_⟩
  have := List.find?_some h
  simpa using this

theorem findJob_update (db : List PhotoJob) (k : Nat) (f : PhotoJob → PhotoJob)
    (hf : ∀ j, (f j).id = j.id) (id : Nat) :
    findJob (updateJobRow db k f) id =
      (findJob db id).map (fun j => if j.id == k then f j else j) := by
  unfold findJob updateJobRow
  rw [List.find?_map]
  have hpg : ((fun j : PhotoJob => j.id == id) ∘
      (fun j => if j.id == k then f j else j)) =
      (fun j : PhotoJob => j.id == id) := by
    funext j
    by_cases hk : j.id = k <;> simp [Function.comp, hk, hf]
  rw [hpg]

theorem findJob_append_left {db : List PhotoJob} {id : Nat} {j : PhotoJob}
    (h : findJob db id = some j) (l : List PhotoJob) :
    findJob (db ++ l) id = some j := by
  unfold findJob at *
  rw [List.find?_append, h]
  rfl

theorem findJob_filter_ne {db : List PhotoJob} {id k : Nat} (hne : id ≠ k) :
    findJob (db.filter (fun j => j.id != k)) id = findJob db id := by
  unfold findJob
  rw [List.find?_filter]
  congr 1
  funext a
  by_cases hid : a.id = id <;> simp [hid, hne, Ne.symm]

theorem findJob_filter_self (db : List PhotoJob) (k : Nat) :
    findJob (db.filter (fun j => j.id != k)) k = none := by
  unfold findJob
  rw [List.find?_filter]
  rw [List.find?_eq_none]
  intro x _
  by_cases hk : x.id = k <;> simp [hk]

/-! ## Shape lemmas for the mutating endpoints -/

theorem select_snd_cases (db : List PhotoJob) (caller jobId : Nat)
    (photo : Option String) :
    (api_select_artist_photo db caller jobId photo).2 = db ∨
    ∃ p, (api_select_artist_photo db caller jobId photo).2 =
      updateJobRow db jobId (fun j => { j with selected_photo := some p }) := by
  unfold api_select_artist_photo
  cases db.find? (fun j =>
      j.id == jobId && j.user_id == caller && j.status == "completed") with
  | none => exact Or.inl rfl
  | some job =>
    cases photo with
    | none => exact Or.inl rfl
    | some p =>
      dsimp only
      by_cases hp : p = ""
      · rw [if_pos hp]
        exact Or.inl rfl
      · rw [if_neg hp]
        by_cases hmem : p ∈ job.photo_paths.getD []
        · rw [if_pos hmem]
          exact Or.inr ⟨p, rfl⟩
        · rw [if_neg hmem]
          exact Or.inl rfl

theorem delete_snd_cases (db : List PhotoJob) (fs : List String)
    (caller jobId : Nat) :
    ((api_delete_photo_job db fs caller jobId).2.1 = db ∧
     (api_delete_photo_job db fs caller jobId).2.2 = fs) ∨
    (api_delete_photo_job db fs caller jobId).2.1 =
      db.filter (fun j => j.id != jobId) := by
  unfold api_delete_photo_job
  cases db.find? (fun j => j.id == jobId && j.user_id == caller) with
  | none => exact Or.inl ⟨rfl, rfl⟩
  | some job => exact Or.inr rfl

theorem mem_updateJobRow {j' : PhotoJob} {db : List PhotoJob} {k : Nat}
    {f : PhotoJob → PhotoJob} (h : j' ∈ updateJobRow db k f) :
    ∃ j ∈ db, (j.id ≠ k ∧ j' = j) ∨ (j.id = k ∧ j' = f j) := by
  rcases List.mem_map.1 h with ⟨j, hj, hji⟩
  by_cases hid : j.id = k
  · exact ⟨j, hj, Or.inr ⟨hid, by rw [← hji]; simp [hid]⟩⟩
  · exact ⟨j, hj, Or.inl ⟨hid, by rw [← hji]; simp [hid]⟩⟩

/-! ## Reachability invariant of the job system

Every reachable row carries one of the three statuses the code ever
writes (`'generating'` at insert, `'completed'`/`'failed'` at finalize),
and a row whose dispatched worker has not yet run is still
`'generating'`. -/

structure JobInv (s : Sys) : Prop where
  statuses : ∀ j ∈ s.db,
    j.status = "generating" ∨ j.status = "completed" ∨ j.status = "failed"
  workerGen : ∀ j ∈ s.db, j.id ∈ s.workers → j.status = "generating"

theorem jobInv_init : JobInv initSys :=
  ⟨by simp [initSys], by simp [initSys]⟩

theorem finalizeRow_id (paths : List String) (j : PhotoJob) :
    (finalizeRow paths j).id = j.id := by
  unfold finalizeRow
  by_cases hp : paths.isEmpty <;> simp [hp]

theorem finalizeRow_status (paths : List String) (j : PhotoJob) :
    (finalizeRow paths j).status = "completed" ∨
    (finalizeRow paths j).status = "failed" := by
  unfold finalizeRow
  by_cases hp : paths.isEmpty <;> simp [hp]

theorem jobInv_step (s : Sys) (hInv : JobInv s) (op : Op) :
    JobInv (step s op) := by
  cases op with
  | create newId userId af =>
    by_cases hfresh : s.db.any (fun j => j.id == newId)
    · have : step s (Op.create newId userId af) = s := by
        simp [step, hfresh]
      rw [this]
      exact hInv
    · have hstep : step s (Op.create newId userId af) =
          ⟨s.db ++ [newPhotoJob newId userId af], s.fs,
           s.workers ++ [newId]⟩ := by
        simp [step, hfresh]
      have hfr : ∀ j ∈ s.db, j.id ≠ newId := by
        intro j hj h
        exact hfresh (List.any_eq_true.2 ⟨j, hj, by simp [h]⟩)
      rw [hstep]
      constructor
      · intro j hj
        rcases List.mem_append.1 hj with h1 | h1
        · exact hInv.statuses j h1
        · have : j = newPhotoJob newId userId af := by simpa using h1
          subst this
          exact Or.inl rfl
      · intro j hj hw
        rcases List.mem_append.1 hj with h1 | h1
        · rcases List.mem_append.1 hw with h2 | h2
          · exact hInv.workerGen j h1 h2
          · have : j.id = newId := by simpa using h2
            exact absurd this (hfr j h1)
        · have : j = newPhotoJob newId userId af := by simpa using h1
          subst this
          rfl
  | runWorker jobId attempts =>
    by_cases hw : jobId ∈ s.workers
    · have hstep : step s (Op.runWorker jobId attempts) =
          ⟨run_photo_generation s.db jobId attempts,
           s.fs ++ generatedPaths jobId attempts,
           s.workers.filter (fun w => w != jobId)⟩ := by
        simp [step, hw]
      rw [hstep]
      constructor
      · intro j' hj'
        rcases mem_updateJobRow hj' with ⟨j, hj, ⟨_, rfl⟩ | ⟨_, rfl⟩⟩
        · exact hInv.statuses _ hj
        · rcases finalizeRow_status (generatedPaths jobId attempts) j with h | h
          · exact Or.inr (Or.inl h)
          · exact Or.inr (Or.inr h)
      · intro j' hj' hwm
        have hne : j'.id ≠ jobId := by
          have := (List.mem_filter.1 hwm).2
          simpa using this
        have hin : j'.id ∈ s.workers := (List.mem_filter.1 hwm).1
        rcases mem_updateJobRow hj' with ⟨j, hj, ⟨_, rfl⟩ | ⟨hid, rfl⟩⟩
        · exact hInv.workerGen _ hj hin
        · rw [finalizeRow_id] at hne
          exact absurd hid hne
    · have : step s (Op.runWorker jobId attempts) = s := by
        simp [step, hw]
      rw [this]
      exact hInv
  | crashWorker jobId msg =>
    by_cases hw : jobId ∈ s.workers
    · have hstep : step s (Op.crashWorker jobId msg) =
          ⟨crashPhotoGeneration s.db jobId msg, s.fs,
           s.workers.filter (fun w => w != jobId)⟩ := by
        simp [step, hw]
      rw [hstep]
      constructor
      · intro j' hj'
        rcases mem_updateJobRow hj' with ⟨j, hj, ⟨_, rfl⟩ | ⟨_, rfl⟩⟩
        · exact hInv.statuses _ hj
        · exact Or.inr (Or.inr rfl)
      · intro j' hj' hwm
        have hne : j'.id ≠ jobId := by
          have := (List.mem_filter.1 hwm).2
          simpa using this
        have hin : j'.id ∈ s.workers := (List.mem_filter.1 hwm).1
        rcases mem_updateJobRow hj' with ⟨j, hj, ⟨_, rfl⟩ | ⟨hid, rfl⟩⟩
        · exact hInv.workerGen _ hj hin
        · exact absurd hid hne
    · have : step s (Op.crashWorker jobId msg) = s := by
        simp [step, hw]
      rw [this]
      exact hInv
  | select caller jobId photo =>
    have hdb : (step s (Op.select caller jobId photo)).db =
        (api_select_artist_photo s.db caller jobId photo).2 := rfl
    have hws : (step s (Op.select caller jobId photo)).workers =
        s.workers := rfl
    constructor
    · intro j' hj'
      rw [hdb] at hj'
      rcases select_snd_cases s.db caller jobId photo with h | ⟨p, h⟩
      · rw [h] at hj'
        exact hInv.statuses j' hj'
      · rw [h] at hj'
        rcases mem_updateJobRow hj' with ⟨j, hj, ⟨_, rfl⟩ | ⟨_, rfl⟩⟩
        · exact hInv.statuses _ hj
        · exact hInv.statuses j hj
    · intro j' hj' hwm
      rw [hdb] at hj'
      rw [hws] at hwm
      rcases select_snd_cases s.db caller jobId photo with h | ⟨p, h⟩
      · rw [h] at hj'
        exact hInv.workerGen j' hj' hwm
      · rw [h] at hj'
        rcases mem_updateJobRow hj' with ⟨j, hj, ⟨_, rfl⟩ | ⟨_, rfl⟩⟩
        · exact hInv.workerGen _ hj hwm
        · exact hInv.workerGen j hj hwm
  | delete caller jobId =>
    have hdb : (step s (Op.delete caller jobId)).db =
        (api_delete_photo_job s.db s.fs caller jobId).2.1 := rfl
    have hws : (step s (Op.delete caller jobId)).workers = s.workers := rfl
    constructor
    · intro j hj
      rw [hdb] at hj
      rcases delete_snd_cases s.db s.fs caller jobId with ⟨h, _⟩ | h
      · rw [h] at hj
        exact hInv.statuses j hj
      · rw [h] at hj
        exact hInv.statuses j (List.mem_of_mem_filter hj)
    · intro j hj hw
      rw [hdb] at hj
      rw [hws] at hw
      rcases delete_snd_cases s.db s.fs caller jobId with ⟨h, _⟩ | h
      · rw [h] at hj
        exact hInv.workerGen j hj hw
      · rw [h] at hj
        exact hInv.workerGen j (List.mem_of_mem_filter hj) hw

theorem jobInv_foldl : ∀ (ops : List Op) (s : Sys),
    JobInv s → JobInv (ops.foldl step s)
  | [], _, h => h
  | op :: ops, s, h => jobInv_foldl ops (step s op) (jobInv_step s h op)

theorem jobInv_runOps (ops : List Op) : JobInv (runOps ops) :=
  jobInv_foldl ops initSys jobInv_init

/-! ## Per-step status monotonicity -/

theorem statusRank_terminal {st : String} (h : st = "completed" ∨ st = "failed") :
    statusRank st = 2 := by
  rcases h with h | h <;> subst h <;> decide

theorem status_step (s : Sys) (hInv : JobInv s) (op : Op) (id : Nat)
    (j j' : PhotoJob)
    (hj : findJob s.db id = some j)
    (hj' : findJob (step s op).db id = some j') :
    statusRank j.status ≤ statusRank j'.status ∧
    (isTerminal j.status → j'.status = j.status) := by
  have hmem := mem_of_findJob hj
  cases op with
  | create newId userId af =>
    by_cases hfresh : s.db.any (fun j => j.id == newId)
    · have hs : step s (Op.create newId userId af) = s := by
        simp [step, hfresh]
      rw [hs, hj] at hj'
      cases hj'
      exact ⟨le_refl _, fun _ => rfl⟩
    · have hs : (step s (Op.create newId userId af)).db =
          s.db ++ [newPhotoJob newId userId af] := by
        simp [step, hfresh]
      rw [hs, findJob_append_left hj] at hj'
      cases hj'
      exact ⟨le_refl _, fun _ => rfl⟩
  | runWorker jobId attempts =>
    by_cases hw : jobId ∈ s.workers
    · have hs : (step s (Op.runWorker jobId attempts)).db =
          updateJobRow s.db jobId (finalizeRow (generatedPaths jobId attempts)) := by
        simp [step, hw, run_photo_generation, finalizeJob]
      rw [hs, findJob_update _ _ _ (finalizeRow_id _) id, hj] at hj'
      rw [Option.map_some'] at hj'
      by_cases hid : j.id = jobId
      · have hgen : j.status = "generating" := by
          exact hInv.workerGen j hmem.1 (hid ▸ hw)
        rw [if_pos (by simpa using hid)] at hj'
        cases hj'
        constructor
        · rw [hgen, statusRank_terminal (finalizeRow_status _ _)]
          decide
        · intro ht
          rw [hgen] at ht
          rcases ht with h | h <;> exact absurd h (by decide)
      · rw [if_neg (by simpa using hid)] at hj'
        cases hj'
        exact ⟨le_refl _, fun _ => rfl⟩
    · have hs : step s (Op.runWorker jobId attempts) = s := by
        simp [step, hw]
      rw [hs, hj] at hj'
      cases hj'
      exact ⟨le_refl _, fun _ => rfl⟩
  | crashWorker jobId msg =>
    by_cases hw : jobId ∈ s.workers
    · have hs : (step s (Op.crashWorker jobId msg)).db =
          updateJobRow s.db jobId (crashRow msg) := by
        simp [step, hw, crashPhotoGeneration]
      rw [hs, findJob_update s.db jobId (crashRow msg) (fun j => rfl) id,
        hj] at hj'
      rw [Option.map_some'] at hj'
      by_cases hid : j.id = jobId
      · have hgen : j.status = "generating" := by
          exact hInv.workerGen j hmem.1 (hid ▸ hw)
        rw [if_pos (by simpa using hid)] at hj'
        cases hj'
        constructor
        · rw [hgen]
          have hcr : (crashRow msg j).status = "failed" := rfl
          rw [hcr]
          decide
        · intro ht
          rw [hgen] at ht
          rcases ht with h | h <;> exact absurd h (by decide)
      · rw [if_neg (by simpa using hid)] at hj'
        cases hj'
        exact ⟨le_refl _, fun _ => rfl⟩
    · have hs : step s (Op.crashWorker jobId msg) = s := by
        simp [step, hw]
      rw [hs, hj] at hj'
      cases hj'
      exact ⟨le_refl _, fun _ => rfl⟩
  | select caller jobId photo =>
    have hs : (step s (Op.select caller jobId photo)).db =
        (api_select_artist_photo s.db caller jobId photo).2 := rfl
    rcases select_snd_cases s.db caller jobId photo with h | ⟨p, h⟩
    · rw [hs, h, hj] at hj'
      cases hj'
      exact ⟨le_refl _, fun _ => rfl⟩
    · rw [hs, h, findJob_update s.db jobId
        (fun j => { j with selected_photo := some p }) (fun j => rfl) id,
        hj] at hj'
      rw [Option.map_some'] at hj'
      have hst : j'.status = j.status := by
        by_cases hid : j.id = jobId
        · rw [if_pos (by simpa using hid)] at hj'
          cases hj'
          rfl
        · rw [if_neg (by simpa using hid)] at hj'
          cases hj'
          rfl
      rw [hst]
      exact ⟨le_refl _, fun _ => rfl⟩
  | delete caller jobId =>
    have hs : (step s (Op.delete caller jobId)).db =
        (api_delete_photo_job s.db s.fs caller jobId).2.1 := rfl
    rcases delete_snd_cases s.db s.fs caller jobId with ⟨h, _⟩ | h
    · rw [hs, h, hj] at hj'
      cases hj'
      exact ⟨le_refl _, fun _ => rfl⟩
    · rw [hs, h] at hj'
      by_cases hid : id = jobId
      · rw [hid, findJob_filter_self] at hj'
        cases hj'
      · rw [findJob_filter_ne hid, hj] at hj'
        cases hj'
        exact ⟨le_refl _, fun _ => rfl⟩

/-! ## Claim C1 -/

/-- C1 (counterexample): the claim states that every async photo job
starts in status `pending`; but the single job created by one `create`
operation from the empty system carries status `'generating'`
immediately — `api_generate_artist_photos` inserts the row with the
literal `'generating'`, and no observer ever sees `pending`. -/
theorem c1_counterexample :
    (runOps [Op.create 1 7 none]).db.map (fun j => j.status) = ["generating"] ∧
    ("generating" : String) ≠ "pending" :=
  ⟨rfl, by decide⟩

/-- C1 (amended): every async photo job starts in status `generating`
when created (the schema's `pending` default is never observed), and its
status only ever advances `generating → {completed, failed}`: across any
sequence of operations, no observed status is `pending`, ranks never
decrease, and a terminal status never changes again. -/
theorem photo_job_status_monotone (ops : List Op) (op : Op) (id : Nat)
    (j j' : PhotoJob)
    (hj : findJob (runOps ops).db id = some j)
    (hj' : findJob (step (runOps ops) op).db id = some j') :
    j.status ≠ "pending" ∧
    statusRank j.status ≤ statusRank j'.status ∧
    (isTerminal j.status → j'.status = j.status) := by
  have hInv := jobInv_runOps ops
  have hmem := mem_of_findJob hj
  refine ⟨?_, status_step _ hInv op id j j' hj hj'⟩
  rcases hInv.statuses j hmem.1 with h | h | h <;> rw [h] <;> decide

/-- C1 (witness): the amended theorem applied to the concrete trace
"create job 1 for user 7, then its worker succeeds on all candidates". -/
theorem photo_job_status_monotone_witness :
    ("generating" : String) ≠ "pending" ∧
    statusRank "generating" ≤ statusRank "completed" ∧
    (isTerminal "generating" → "completed" = "generating") :=
  photo_job_status_monotone [Op.create 1 7 none]
    (Op.runWorker 1 (fun _ => some "src.png")) 1
    (newPhotoJob 1 7 none)
    { id := 1, user_id := 7, artist_filename := none, status := "completed",
      photo_paths := some ["job_1_option_1.png", "job_1_option_2.png",
        "job_1_option_3.png", "job_1_option_4.png"],
      selected_photo := none, error := none, completed_at := true }
    rfl rfl

/-! ## Claim C2 -/

/-- The row job 1 ends in when every candidate attempt raises. -/
def c2JobFailed : PhotoJob :=
  { id := 1, user_id := 7, artist_filename := none, status := "failed",
    photo_paths := none, selected_photo := none,
    error := some "All generations failed", completed_at := true }

/-- C2 (counterexample): a job all of whose four candidates raise ends
`failed`, but its error message is `'All generations failed'` — not the
`"all candidates failed"` the claim states. -/
theorem c2_counterexample :
    findJob (run_photo_generation [newPhotoJob 1 7 none] 1 (fun _ => none)) 1 =
      some c2JobFailed ∧
    c2JobFailed.error = some "All generations failed" ∧
    (some "All generations failed" : Option String) ≠ some "all candidates failed" :=
  ⟨rfl, rfl, by decide⟩

/-- C2 (amended): for every async photo job whose worker runs all
candidate attempts to completion, the job finalizes to `completed` iff
its artifact list is non-empty (and then stores exactly that list), and
to `failed` with error message `'All generations failed'` iff the
artifact list is empty. -/
theorem photo_job_finalize_iff (db : List PhotoJob) (jobId : Nat)
    (attempts : Nat → Option String) (j j' : PhotoJob)
    (hj : findJob db jobId = some j)
    (hj' : findJob (run_photo_generation db jobId attempts) jobId = some j') :
    (j'.status = "completed" ↔ generatedPaths jobId attempts ≠ []) ∧
    ((j'.status = "failed" ∧ j'.error = some "All generations failed") ↔
      generatedPaths jobId attempts = []) ∧
    (j'.status = "completed" →
      j'.photo_paths = some (generatedPaths jobId attempts)) := by
  have hid : j.id = jobId := (mem_of_findJob hj).2
  rw [run_photo_generation, finalizeJob,
    findJob_update db jobId _ (finalizeRow_id _) jobId, hj,
    Option.map_some'] at hj'
  rw [if_pos (by simpa using hid)] at hj'
  cases hj'
  unfold finalizeRow
  by_cases hp : (generatedPaths jobId attempts).isEmpty
  · have hpe : generatedPaths jobId attempts = [] := by
      simpa using hp
    rw [if_pos hp]
    exact ⟨⟨fun h => by simp at h, fun h => absurd hpe h⟩,
      ⟨fun _ => hpe, fun _ => ⟨rfl, rfl⟩⟩,
      fun h => by simp at h⟩
  · have hne : generatedPaths jobId attempts ≠ [] := by
      intro h
      exact hp (by simp [h])
    rw [if_neg hp]
    exact ⟨⟨fun _ => hne, fun _ => rfl⟩,
      ⟨fun hc => by have := hc.1; simp at this, fun h => absurd h hne⟩,
      fun _ => rfl⟩

/-- C2 (witness): the amended theorem at the concrete all-candidates-fail
run of job 1. -/
theorem photo_job_finalize_iff_witness :
    (c2JobFailed.status = "completed" ↔ generatedPaths 1 (fun _ => none) ≠ []) ∧
    ((c2JobFailed.status = "failed" ∧
      c2JobFailed.error = some "All generations failed") ↔
      generatedPaths 1 (fun _ => none) = []) ∧
    (c2JobFailed.status = "completed" →
      c2JobFailed.photo_paths = some (generatedPaths 1 (fun _ => none))) :=
  photo_job_finalize_iff [newPhotoJob 1 7 none] 1 (fun _ => none)
    (newPhotoJob 1 7 none) c2JobFailed rfl rfl


/-! ## Claim C8 -/

/-- Looking up the finalized job row after a completed worker run. -/
theorem findJob_run_photo_generation (db : List PhotoJob) (jobId : Nat)
    (attempts : Nat → Option String) (j : PhotoJob)
    (hj : findJob db jobId = some j) :
    findJob (run_photo_generation db jobId attempts) jobId =
      some (finalizeRow (generatedPaths jobId attempts) j) := by
  rw [run_photo_generation, finalizeJob,
    findJob_update db jobId _ (finalizeRow_id _) jobId, hj, Option.map_some',
    if_pos (by simpa using (mem_of_findJob hj).2)]

/-- C8: the worker performs exactly four independent candidate attempts
(the artifact count equals the number of successful attempts among
indices 0..3 — one attempt's failure never discards another's result),
each successful attempt i stores its artifact under the name
`job_<jobId>_option_<i+1>.png` derived from the job identity and the
ordinal, and when exactly one of the four attempts succeeds the job
finalizes `completed` with exactly one artifact. -/
theorem photo_worker_four_independent (db : List PhotoJob) (jobId : Nat)
    (attempts : Nat → Option String) (j : PhotoJob)
    (hj : findJob db jobId = some j) :
    (generatedPaths jobId attempts).length =
      (List.range 4).countP (fun i => (attempts i).isSome) ∧
    (∀ i, i < 4 → (attempts i).isSome →
      destFilename jobId i ∈ generatedPaths jobId attempts) ∧
    ((List.range 4).countP (fun i => (attempts i).isSome) = 1 →
      ∀ j', findJob (run_photo_generation db jobId attempts) jobId = some j' →
        j'.status = "completed" ∧
        j'.photo_paths = some (generatedPaths jobId attempts) ∧
        (generatedPaths jobId attempts).length = 1) := by
  have hlen : (generatedPaths jobId attempts).length =
      (List.range 4).countP (fun i => (attempts i).isSome) := by
    unfold generatedPaths
    rw [List.length_filterMap_eq_countP]
    congr 1
    funext i
    cases attempts i <;> simp
  refine ⟨hlen, ?_, ?_⟩
  · intro i h4 hsome
    rcases Option.isSome_iff_exists.1 hsome with ⟨a, ha⟩
    exact List.mem_filterMap.2 ⟨i, List.mem_range.2 h4, by simp [ha]⟩
  · intro h1 j' hj'
    rw [findJob_run_photo_generation db jobId attempts j hj] at hj'
    cases hj'
    have hone : (generatedPaths jobId attempts).length = 1 := by
      rw [hlen, h1]
    have hne : ¬(generatedPaths jobId attempts).isEmpty := by
      intro h
      rw [List.isEmpty_iff.1 h] at hone
      simp at hone
    unfold finalizeRow
    rw [if_neg hne]
    exact ⟨rfl, rfl, hone⟩

/-- C8 (witness): three of four candidates raise and one succeeds; the
job completes with exactly the one artifact `job_1_option_3.png`. -/
theorem photo_worker_four_independent_witness :
    destFilename 1 2 ∈ generatedPaths 1
      (fun i => if i = 2 then some "src.png" else none) ∧
    (generatedPaths 1 (fun i => if i = 2 then some "src.png" else none)).length = 1 := by
  have h := photo_worker_four_independent [newPhotoJob 1 7 none] 1
    (fun i => if i = 2 then some "src.png" else none) (newPhotoJob 1 7 none) rfl
  exact ⟨h.2.1 2 (by decide) (by decide), (h.2.2 (by decide) _ rfl).2.2⟩

/-! ## Claim C3 -/

/-- C3: `api_select_artist_photo` succeeds only on a job owned by the
caller in status `completed` with the supplied reference a member of the
job's artifact list; whenever no row of the table satisfies all of
ownership, completedness and membership for the request, the call fails
and the job table is returned unchanged. -/
theorem select_requires_completed_member (db : List PhotoJob)
    (caller jobId : Nat) (photo : Option String) :
    (∀ p, (api_select_artist_photo db caller jobId photo).1 =
        SelectResult.ok p →
      photo = some p ∧
      ∃ j, j ∈ db ∧ j.id = jobId ∧ j.user_id = caller ∧
        j.status = "completed" ∧ p ∈ j.photo_paths.getD []) ∧
    ((∀ j, j ∈ db → j.id = jobId →
        ¬(j.user_id = caller ∧ j.status = "completed" ∧
          ∃ p, photo = some p ∧ p ∈ j.photo_paths.getD [])) →
      (∀ p, (api_select_artist_photo db caller jobId photo).1 ≠
        SelectResult.ok p) ∧
      (api_select_artist_photo db caller jobId photo).2 = db) := by
  unfold api_select_artist_photo
  cases hfind : db.find? (fun j =>
      j.id == jobId && j.user_id == caller && j.status == "completed") with
  | none =>
    dsimp only
    exact ⟨fun p h => (nomatch h), fun _ => ⟨fun p h => (nomatch h), rfl⟩⟩
  | some job =>
    have hpred := List.find?_some hfind
    have hmem := List.mem_of_find?_eq_some hfind
    simp only [Bool.and_eq_true, beq_iff_eq] at hpred
    obtain ⟨⟨hjid, huser⟩, hstat⟩ := hpred
    cases photo with
    | none =>
      dsimp only
      exact ⟨fun p h => (nomatch h), fun _ => ⟨fun p h => (nomatch h), rfl⟩⟩
    | some p =>
      dsimp only
      by_cases hp : p = ""
      · rw [if_pos hp]
        exact ⟨fun p' h => (nomatch h), fun _ => ⟨fun p' h => (nomatch h), rfl⟩⟩
      · rw [if_neg hp]
        by_cases hin : p ∈ job.photo_paths.getD []
        · rw [if_pos hin]
          constructor
          · intro p' h
            cases h
            exact ⟨rfl, job, hmem, hjid, huser, hstat, hin⟩
          · intro hforall
            exact absurd ⟨huser, hstat, p, rfl, hin⟩ (hforall job hmem hjid)
        · rw [if_neg hin]
          exact ⟨fun p' h => (nomatch h), fun _ => ⟨fun p' h => (nomatch h), rfl⟩⟩

/-- The completed two-artifact job of the select scenario. -/
def c3Job : PhotoJob :=
  { id := 1, user_id := 7, artist_filename := none, status := "completed",
    photo_paths := some ["a.png", "b.png"], selected_photo := none,
    error := none, completed_at := true }

/-- C3 (witness): selecting `x.png` on a completed job whose artifact
list is `[a.png, b.png]` fails and leaves the table unchanged. -/
theorem select_requires_completed_member_witness :
    (api_select_artist_photo [c3Job] 7 1 (some "x.png")).1 ≠
      SelectResult.ok "x.png" ∧
    (api_select_artist_photo [c3Job] 7 1 (some "x.png")).2 = [c3Job] := by
  have h := (select_requires_completed_member [c3Job] 7 1 (some "x.png")).2 ?_
  · exact ⟨h.1 "x.png", h.2⟩
  · intro j hj _
    rintro ⟨-, -, p, hp, hmemp⟩
    cases hp
    have : j = c3Job := by simpa using hj
    subst this
    simp [c3Job] at hmemp

/-! ## Claim C4 -/

/-- C4: for every job owned by the caller, `api_delete_photo_job`
reports success, removes the job record, removes every listed artifact
file that exists, treats missing files as a no-op, and — in particular —
when none of the listed files exists any more it still succeeds, still
removes the record, and leaves the directory untouched. -/
theorem delete_idempotent_cleanup (db : List PhotoJob) (fs : List String)
    (caller jobId : Nat) (j : PhotoJob)
    (hj : db.find? (fun r => r.id == jobId && r.user_id == caller) = some j) :
    (api_delete_photo_job db fs caller jobId).1 = DeleteResult.ok ∧
    (∀ r ∈ (api_delete_photo_job db fs caller jobId).2.1, r.id ≠ jobId) ∧
    (∀ p ∈ j.photo_paths.getD [],
      p ∉ (api_delete_photo_job db fs caller jobId).2.2) ∧
    (∀ f ∈ fs, f ∉ j.photo_paths.getD [] →
      f ∈ (api_delete_photo_job db fs caller jobId).2.2) ∧
    ((∀ p ∈ j.photo_paths.getD [], p ∉ fs) →
      (api_delete_photo_job db fs caller jobId).2.2 = fs) := by
  unfold api_delete_photo_job
  rw [hj]
  dsimp only
  refine ⟨rfl, ?_, ?_, ?_, ?_⟩
  · intro r hr
    have := (List.mem_filter.1 hr).2
    simpa using this
  · intro p hp hmem
    have := (List.mem_filter.1 hmem).2
    simp only [Bool.not_eq_true'] at this
    rw [List.contains_eq_any_beq] at this
    have hcon : (j.photo_paths.getD []).any (p == ·) = true :=
      List.any_eq_true.2 ⟨p, hp, by simp⟩
    rw [hcon] at this
    cases this
  · intro f hf hnot
    refine List.mem_filter.2 ⟨hf, ?_⟩
    rw [Bool.not_eq_true']
    rw [List.contains_eq_any_beq]
    rw [List.any_eq_false]
    intro p hp
    simp only [beq_iff_eq]
    intro hfp
    subst hfp
    exact hnot hp
  · intro hnone
    apply List.filter_eq_self.2
    intro f hf
    rw [Bool.not_eq_true']
    rw [List.contains_eq_any_beq, List.any_eq_false]
    intro p hp
    simp only [beq_iff_eq]
    intro hfp
    subst hfp
    exact hnone f hp hf

/-- The completed job whose only listed artifact is already gone. -/
def c4Job : PhotoJob :=
  { id := 1, user_id := 7, artist_filename := none, status := "completed",
    photo_paths := some ["a.png"], selected_photo := none,
    error := none, completed_at := true }

/-- C4 (witness): deleting job 1, whose single listed file `a.png` no
longer exists in the directory (which only holds `other.png`), still
reports success and leaves the directory untouched. -/
theorem delete_idempotent_cleanup_witness :
    (api_delete_photo_job [c4Job] ["other.png"] 7 1).1 = DeleteResult.ok ∧
    (api_delete_photo_job [c4Job] ["other.png"] 7 1).2.2 = ["other.png"] := by
  have h := delete_idempotent_cleanup [c4Job] ["other.png"] 7 1 c4Job rfl
  refine ⟨h.1, h.2.2.2.2 ?_⟩
  intro p hp
  have : p = "a.png" := by simpa [c4Job] using hp
  subst this
  decide


/-! ## Claim C9 -/

/-- C9: for every job and every caller who is not the job's owner, the
get, select and delete operations return NotFound, mutate nothing, and
produce the same outcome as on a table from which every row of that job
id has been removed — so the existence of another actor's job is never
revealed. -/
theorem ownership_hidden_as_notfound (db : List PhotoJob)
    (caller jobId : Nat) (photo : Option String) (fs : List String)
    (h : ∀ j ∈ db, j.id = jobId → j.user_id ≠ caller) :
    api_get_photo_job db caller jobId = GetJobResult.notFound ∧
    (api_select_artist_photo db caller jobId photo).1 = SelectResult.notFound ∧
    (api_select_artist_photo db caller jobId photo).2 = db ∧
    (api_delete_photo_job db fs caller jobId).1 = DeleteResult.notFound ∧
    (api_delete_photo_job db fs caller jobId).2.1 = db ∧
    (api_delete_photo_job db fs caller jobId).2.2 = fs ∧
    api_get_photo_job db caller jobId =
      api_get_photo_job (db.filter (fun j => j.id != jobId)) caller jobId ∧
    (api_select_artist_photo db caller jobId photo).1 =
      (api_select_artist_photo (db.filter (fun j => j.id != jobId))
        caller jobId photo).1 ∧
    (api_delete_photo_job db fs caller jobId).1 =
      (api_delete_photo_job (db.filter (fun j => j.id != jobId))
        fs caller jobId).1 := by
  have hown : db.find? (fun j => j.id == jobId && j.user_id == caller) = none := by
    rw [List.find?_eq_none]
    intro j hj hp
    obtain ⟨hid, hu⟩ : j.id = jobId ∧ j.user_id = caller := by simpa using hp
    exact h j hj hid hu
  have hcomp : db.find? (fun j =>
      j.id == jobId && j.user_id == caller && j.status == "completed") = none := by
    rw [List.find?_eq_none]
    intro j hj hp
    obtain ⟨⟨hid, hu⟩, -⟩ :
        (j.id = jobId ∧ j.user_id = caller) ∧ j.status = "completed" := by
      simpa using hp
    exact h j hj hid hu
  have hownF : (db.filter (fun j => j.id != jobId)).find?
      (fun j => j.id == jobId && j.user_id == caller) = none := by
    rw [List.find?_eq_none]
    intro j hj hp
    obtain ⟨hid, -⟩ : j.id = jobId ∧ j.user_id = caller := by simpa using hp
    have := (List.mem_filter.1 hj).2
    simp [hid] at this
  have hcompF : (db.filter (fun j => j.id != jobId)).find? (fun j =>
      j.id == jobId && j.user_id == caller && j.status == "completed") = none := by
    rw [List.find?_eq_none]
    intro j hj hp
    obtain ⟨⟨hid, -⟩, -⟩ :
        (j.id = jobId ∧ j.user_id = caller) ∧ j.status = "completed" := by
      simpa using hp
    have := (List.mem_filter.1 hj).2
    simp [hid] at this
  have hget : api_get_photo_job db caller jobId = GetJobResult.notFound := by
    unfold api_get_photo_job
    rw [hown]
  have hgetF : api_get_photo_job (db.filter (fun j => j.id != jobId))
      caller jobId = GetJobResult.notFound := by
    unfold api_get_photo_job
    rw [hownF]
  have hsel : api_select_artist_photo db caller jobId photo =
      (SelectResult.notFound, db) := by
    unfold api_select_artist_photo
    rw [hcomp]
  have hselF : api_select_artist_photo (db.filter (fun j => j.id != jobId))
      caller jobId photo =
      (SelectResult.notFound, db.filter (fun j => j.id != jobId)) := by
    unfold api_select_artist_photo
    rw [hcompF]
  have hdel : api_delete_photo_job db fs caller jobId =
      (DeleteResult.notFound, db, fs) := by
    unfold api_delete_photo_job
    rw [hown]
  have hdelF : api_delete_photo_job (db.filter (fun j => j.id != jobId))
      fs caller jobId =
      (DeleteResult.notFound, db.filter (fun j => j.id != jobId), fs) := by
    unfold api_delete_photo_job
    rw [hownF]
  rw [hget, hgetF, hsel, hselF, hdel, hdelF]
  exact ⟨rfl, rfl, rfl, rfl, rfl, rfl, rfl, rfl, rfl⟩

/-- Job 1, owned by user 7, used in the ownership scenario. -/
def c9Job : PhotoJob :=
  { id := 1, user_id := 7, artist_filename := none, status := "completed",
    photo_paths := some ["a.png"], selected_photo := none,
    error := none, completed_at := true }

/-- C9 (witness): caller 9 probing job 1 owned by user 7 gets NotFound
from get, select and delete. -/
theorem ownership_hidden_as_notfound_witness :
    api_get_photo_job [c9Job] 9 1 = GetJobResult.notFound ∧
    (api_select_artist_photo [c9Job] 9 1 (some "a.png")).1 =
      SelectResult.notFound ∧
    (api_delete_photo_job [c9Job] ["a.png"] 9 1).1 = DeleteResult.notFound := by
  have h := ownership_hidden_as_notfound [c9Job] 9 1 (some "a.png") ["a.png"] ?_
  · exact ⟨h.1, h.2.1, h.2.2.2.1⟩
  · intro j hj _
    have : j = c9Job := by simpa using hj
    subst this
    decide

/-! ## Claim C5 -/

/-- C5 (counterexample): on a text carrying two `AUDIO_FILE` markers the
dashboard parser extracts the value of the first occurrence (`/a`), not
the value `/b` of the last occurrence that the claim requires. -/
theorem c5_counterexample :
    searchAudioFile ["AUDIO_FILE=/a", "AUDIO_FILE=/b"] = some "/a" ∧
    lastOccurrenceValue "AUDIO_FILE=" ["AUDIO_FILE=/a", "AUDIO_FILE=/b"] =
      some "/b" ∧
    (some "/a" : Option String) ≠ some "/b" :=
  ⟨rfl, rfl, by decide⟩

/-- C5 (amended): for every combined output text in which a point marker
appears more than once, the extracted value is the value of the **first**
matching occurrence, independent of everything that follows: for the
dashboard `re.search` extraction (generic `KEY=(.+)` markers and the
`SONG_ID=(\d+)` marker) and for the bot's audio-file extraction, a match
on line `l` fixes the result no matter which lines `ls2` come after. -/
theorem point_marker_first_wins :
    (∀ (marker : String) (ls1 : List String) (l v : String) (ls2 : List String),
      (∀ l' ∈ ls1, afterFirstMarker marker l' = none) →
      afterFirstMarker marker l = some v →
      searchMarkerValue marker (ls1 ++ l :: ls2) = some v) ∧
    (∀ (ls1 : List String) (l : String) (ds : List Char) (ls2 : List String),
      (∀ l' ∈ ls1, digitsAfterMarker "SONG_ID=".toList l'.toList = none) →
      digitsAfterMarker "SONG_ID=".toList l.toList = some ds →
      searchSongId (ls1 ++ l :: ls2) = some (digitsToNat ds)) ∧
    (∀ (fe : String → Bool) (ls1 : List String) (l v : String) (ls2 : List String),
      (∀ l' ∈ ls1, lineAudioValue fe l' = none) →
      lineAudioValue fe l = some v →
      (extractAudioFiles fe (ls1 ++ l :: ls2)).head? = some v) := by
  refine ⟨?_, ?_, ?_⟩
  · intro marker ls1 l v ls2 h1 h2
    induction ls1 with
    | nil =>
      show searchMarkerValue marker (l :: ls2) = some v
      unfold searchMarkerValue
      rw [h2]
    | cons a as ih =>
      show searchMarkerValue marker (a :: (as ++ l :: ls2)) = some v
      unfold searchMarkerValue
      rw [h1 a (by simp)]
      exact ih fun l' hl' => h1 l' (by simp [hl'])
  · intro ls1 l ds ls2 h1 h2
    induction ls1 with
    | nil =>
      show searchSongId (l :: ls2) = some (digitsToNat ds)
      unfold searchSongId
      rw [h2]
    | cons a as ih =>
      show searchSongId (a :: (as ++ l :: ls2)) = some (digitsToNat ds)
      unfold searchSongId
      rw [h1 a (by simp)]
      exact ih fun l' hl' => h1 l' (by simp [hl'])
  · intro fe ls1 l v ls2 h1 h2
    unfold extractAudioFiles
    rw [List.filterMap_append]
    rw [List.filterMap_eq_nil_iff.2 h1, List.nil_append,
      List.filterMap_cons_some h2]
    rfl

/-- C5 (witness): the amended theorem at concrete texts — the first
`AUDIO_FILE`, `SONG_ID` and existing bot audio line wins over the later
occurrences. -/
theorem point_marker_first_wins_witness :
    searchMarkerValue "AUDIO_FILE=" (["log"] ++ "AUDIO_FILE=/a" :: ["AUDIO_FILE=/b"]) =
      some "/a" ∧
    searchSongId (["log"] ++ "SONG_ID=42" :: ["SONG_ID=7"]) =
      some (digitsToNat ['4', '2']) ∧
    (extractAudioFiles (fun _ => true)
      (["log"] ++ "AUDIO_FILE=/a" :: ["AUDIO_FILE=/b"])).head? = some "/a" := by
  refine ⟨point_marker_first_wins.1 "AUDIO_FILE=" ["log"] "AUDIO_FILE=/a" "/a"
      ["AUDIO_FILE=/b"] ?_ rfl,
    point_marker_first_wins.2.1 ["log"] "SONG_ID=42" ['4', '2'] ["SONG_ID=7"]
      ?_ rfl,
    point_marker_first_wins.2.2 (fun _ => true) ["log"] "AUDIO_FILE=/a" "/a"
      ["AUDIO_FILE=/b"] ?_ rfl⟩
  all_goals
    intro l' hl'
    have : l' = "log" := by simpa using hl'
    subst this
    rfl


/-! ## Claim C6 -/

/-- C6 (counterexample): an output containing the artifact marker
`AUDIO_FILE=/tmp/a.wav` but no `SONG_ID` yields no persisted record at
all — refuting "persists a record iff the output contains an artifact
marker". -/
theorem c6_counterexample :
    searchAudioFile ["AUDIO_FILE=/tmp/a.wav"] = some "/tmp/a.wav" ∧
    (api_generate [] 7 (some "nova") (some "c") "standard"
      (Invocation.ran ["AUDIO_FILE=/tmp/a.wav"] 0)).2 = [] :=
  ⟨rfl, rfl⟩

/-- C6 (amended): `api_generate` persists a songs row iff the invocation
ran and its output contains **both** the `SONG_ID` and the `AUDIO_FILE`
markers; the persisted row carries the extracted identifier, the
caller's identity and the extracted artifact path, replacing any
previous row of that id and touching no row of a different id; on
`TimedOut` or any execution failure nothing at all is persisted. -/
theorem api_generate_record_iff_both_markers (songs : List SongRow)
    (userId : Nat) (artist concept : Option String) (mode : String) :
    ((api_generate songs userId artist concept mode Invocation.timedOut).2 =
      songs) ∧
    (∀ msg, (api_generate songs userId artist concept mode
      (Invocation.raised msg)).2 = songs) ∧
    (∀ out rc,
      (((searchSongId out).isNone ∨ (searchAudioFile out).isNone) →
        (api_generate songs userId artist concept mode
          (Invocation.ran out rc)).2 = songs) ∧
      (∀ sid af, searchSongId out = some sid → searchAudioFile out = some af →
        (api_generate songs userId artist concept mode
            (Invocation.ran out rc)).2 =
          insertOrReplaceSong songs
            { id := sid, user_id := userId, artist := artist.getD "",
              concept := concept.getD "",
              lyrics := (extractLyrics out).getD "",
              file_path := af, tags := "", mode := mode } ∧
        (∀ r ∈ (api_generate songs userId artist concept mode
            (Invocation.ran out rc)).2,
          r.id = sid → r.user_id = userId ∧ r.file_path = af) ∧
        (∀ r ∈ songs, r.id ≠ sid →
          r ∈ (api_generate songs userId artist concept mode
            (Invocation.ran out rc)).2))) := by
  refine ⟨rfl, fun msg => rfl, ?_⟩
  intro out rc
  constructor
  · intro hnone
    unfold api_generate
    dsimp only
    rcases hnone with hn | hn
    · rw [Option.isNone_iff_eq_none.1 hn]
    · rw [Option.isNone_iff_eq_none.1 hn]
      cases searchSongId out <;> rfl
  · intro sid af hsid haf
    have hmain : (api_generate songs userId artist concept mode
        (Invocation.ran out rc)).2 =
        insertOrReplaceSong songs
          { id := sid, user_id := userId, artist := artist.getD "",
            concept := concept.getD "",
            lyrics := (extractLyrics out).getD "",
            file_path := af, tags := "", mode := mode } := by
      unfold api_generate
      dsimp only
      rw [hsid, haf]
    refine ⟨hmain, ?_, ?_⟩
    · intro r hr hrid
      rw [hmain] at hr
      unfold insertOrReplaceSong at hr
      rcases List.mem_append.1 hr with h1 | h1
      · have := (List.mem_filter.1 h1).2
        simp [hrid] at this
      · have : r = { id := sid, user_id := userId,
                      artist := artist.getD "", concept := concept.getD "",
                      lyrics := (extractLyrics out).getD "",
                      file_path := af, tags := "", mode := mode } := by
          simpa using h1
        subst this
        exact ⟨rfl, rfl⟩
    · intro r hr hne
      rw [hmain]
      unfold insertOrReplaceSong
      exact List.mem_append.2 (Or.inl (List.mem_filter.2 ⟨hr, by simpa using hne⟩))

/-- C6 (witness): the spec scenario — output carrying
`AUDIO_FILE=/tmp/a.wav` and `SONG_ID=42` persists exactly the row with
artifact `/tmp/a.wav` and identifier 42, while a timed-out invocation
persists nothing. -/
theorem api_generate_record_iff_both_markers_witness :
    (api_generate [] 7 (some "nova") (some "c") "standard"
      (Invocation.ran ["log", "AUDIO_FILE=/tmp/a.wav", "SONG_ID=42"] 0)).2 =
      insertOrReplaceSong []
        { id := 42, user_id := 7, artist := "nova", concept := "c",
          lyrics := (extractLyrics
            ["log", "AUDIO_FILE=/tmp/a.wav", "SONG_ID=42"]).getD "",
          file_path := "/tmp/a.wav", tags := "", mode := "standard" } ∧
    (api_generate [] 7 (some "nova") (some "c") "standard"
      Invocation.timedOut).2 = [] := by
  have h := api_generate_record_iff_both_markers [] 7 (some "nova") (some "c")
    "standard"
  exact ⟨((h.2.2 ["log", "AUDIO_FILE=/tmp/a.wav", "SONG_ID=42"] 0).2
    42 "/tmp/a.wav" rfl rfl).1, h.1⟩

/-! ## Claim C10 -/

/-- C10: the synchronous coordinator upserts by the generator-supplied
`SONG_ID`: when a songs row with that id already exists — including one
owned by a different user — the call still answers HTTP 200, the old row
is silently dropped, and the id now maps to a row owned by the caller
with the new artifact path. -/
theorem api_generate_upsert_reassigns (songs : List SongRow) (userId : Nat)
    (artist concept : Option String) (mode : String) (out : List String)
    (rc : Int) (sid : Nat) (af : String) (old : SongRow)
    (hsid : searchSongId out = some sid) (haf : searchAudioFile out = some af)
    (hold : old ∈ songs) (hid : old.id = sid) (howner : old.user_id ≠ userId) :
    old ∉ (api_generate songs userId artist concept mode
      (Invocation.ran out rc)).2 ∧
    (∀ r ∈ (api_generate songs userId artist concept mode
        (Invocation.ran out rc)).2,
      r.id = sid → r.user_id = userId ∧ r.file_path = af) ∧
    { id := sid, user_id := userId, artist := artist.getD "",
      concept := concept.getD "", lyrics := (extractLyrics out).getD "",
      file_path := af, tags := "", mode := mode } ∈
      (api_generate songs userId artist concept mode
        (Invocation.ran out rc)).2 ∧
    (api_generate songs userId artist concept mode
      (Invocation.ran out rc)).1.httpStatus = 200 := by
  have hmain : (api_generate songs userId artist concept mode
      (Invocation.ran out rc)).2 =
      insertOrReplaceSong songs
        { id := sid, user_id := userId, artist := artist.getD "",
          concept := concept.getD "",
          lyrics := (extractLyrics out).getD "",
          file_path := af, tags := "", mode := mode } := by
    unfold api_generate
    dsimp only
    rw [hsid, haf]
  refine ⟨?_, ?_, ?_, ?_⟩
  · rw [hmain]
    unfold insertOrReplaceSong
    intro hmem
    rcases List.mem_append.1 hmem with h1 | h1
    · have := (List.mem_filter.1 h1).2
      simp [hid] at this
    · have hOld : old = { id := sid, user_id := userId,
                          artist := artist.getD "", concept := concept.getD "",
                          lyrics := (extractLyrics out).getD "",
                          file_path := af, tags := "", mode := mode } := by
        simpa using h1
      exact howner (congrArg SongRow.user_id hOld)
  · intro r hr hrid
    rw [hmain] at hr
    unfold insertOrReplaceSong at hr
    rcases List.mem_append.1 hr with h1 | h1
    · have := (List.mem_filter.1 h1).2
      simp [hrid] at this
    · have : r = { id := sid, user_id := userId,
                    artist := artist.getD "", concept := concept.getD "",
                    lyrics := (extractLyrics out).getD "",
                    file_path := af, tags := "", mode := mode } := by
        simpa using h1
      subst this
      exact ⟨rfl, rfl⟩
  · rw [hmain]
    unfold insertOrReplaceSong
    exact List.mem_append.2 (Or.inr (by simp))
  · unfold api_generate
    dsimp only

/-- Row 42 as owned by user 9 before the upsert. -/
def c10OldRow : SongRow :=
  { id := 42, user_id := 9, artist := "ghost", concept := "old",
    lyrics := "", file_path := "/tmp/old.wav", tags := "", mode := "standard" }

/-- C10 (witness): user 7 generating a song whose output reuses id 42
silently replaces user 9's row 42 and the call reports HTTP 200. -/
theorem api_generate_upsert_reassigns_witness :
    c10OldRow ∉ (api_generate [c10OldRow] 7 (some "nova") (some "c") "standard"
      (Invocation.ran ["AUDIO_FILE=/tmp/a.wav", "SONG_ID=42"] 0)).2 ∧
    (api_generate [c10OldRow] 7 (some "nova") (some "c") "standard"
      (Invocation.ran ["AUDIO_FILE=/tmp/a.wav", "SONG_ID=42"] 0)).1.httpStatus =
      200 := by
  have h := api_generate_upsert_reassigns [c10OldRow] 7 (some "nova") (some "c")
    "standard" ["AUDIO_FILE=/tmp/a.wav", "SONG_ID=42"] 0 42 "/tmp/a.wav"
    c10OldRow rfl rfl (by simp) rfl (by decide)
  exact ⟨h.1, h.2.2.2⟩

/-! ## Claim C7 -/

/-- C7 (counterexample): when the "Generating: ..." announcement reply
raises after user 7's marker has been set (and before the `try` is
entered), the handler aborts with the marker still set, and every later
request from user 7 — here one with no announcement failure at all — is
answered busy: the actor is permanently locked out, refuting "on every
completion path ... the marker is cleared, so no actor is permanently
locked out". -/
theorem c7_counterexample :
    (generate_song [] 7 ["nova", "beat"] (fun _ => false)
      Invocation.timedOut (some "telegram send failed") none).1 = [7] ∧
    generate_song [7] 7 ["nova", "beat"] (fun _ => false)
      Invocation.timedOut none none = ([7], BotReply.busy) :=
  ⟨rfl, rfl⟩

/-- C7 (amended): the per-actor guard admits at most one in-flight
generation — a request from an actor whose marker is set is answered
busy with the guard untouched — and once the `try` block is entered,
every completion path (successful run, run that timed out or failed
inside `run_generate`, or an exception raised while replying/sending
inside the `try`) clears the actor's marker; however, an exception
raised by the announcement reply sent after the marker assignment and
before the `try` leaves the marker set, and the actor is then
permanently locked out: every subsequent request, with any arguments
and outcome, is answered busy. -/
theorem concurrency_guard_per_actor (g : Guard) (userId : Nat)
    (ctxArgs : List String) (fe : String → Bool) (inv : Invocation)
    (ar sendRaised : Option String) (msg : String) :
    (userId ∈ g →
      generate_song g userId ctxArgs fe inv ar sendRaised =
        (g, BotReply.busy)) ∧
    (userId ∉ g →
      userId ∉ (generate_song g userId ctxArgs fe inv none sendRaised).1) ∧
    (userId ∉ g → ctxArgs.isEmpty = false →
      2 ≤ (parse_args (joinSpace ctxArgs)).length →
      userId ∈ (generate_song g userId ctxArgs fe inv (some msg) sendRaised).1 ∧
      ∀ (ctxArgs2 : List String) (fe2 : String → Bool) (inv2 : Invocation)
        (ar2 sr2 : Option String),
        generate_song
          (generate_song g userId ctxArgs fe inv (some msg) sendRaised).1
          userId ctxArgs2 fe2 inv2 ar2 sr2 =
        ((generate_song g userId ctxArgs fe inv (some msg) sendRaised).1,
          BotReply.busy)) := by
  refine ⟨?_, ?_, ?_⟩
  · intro h
    unfold generate_song
    rw [if_pos h]
  · intro h
    unfold generate_song
    rw [if_neg h]
    by_cases he : ctxArgs.isEmpty
    · simpa [he] using h
    · simp only [Bool.not_eq_true] at he
      rw [if_neg (by simp [he])]
      by_cases hl : (parse_args (joinSpace ctxArgs)).length < 2
      · rw [if_pos hl]
        exact h
      · rw [if_neg hl]
        dsimp only
        intro hmem
        have := (List.mem_filter.1 hmem).2
        simp [guardRelease] at this
  · intro h he hl
    have hstuck : (generate_song g userId ctxArgs fe inv (some msg)
        sendRaised).1 = g ++ [userId] := by
      unfold generate_song
      rw [if_neg h, if_neg (by simp [he]), if_neg (Nat.not_lt.2 hl)]
    have hmem : userId ∈ (generate_song g userId ctxArgs fe inv (some msg)
        sendRaised).1 := by
      rw [hstuck]
      exact List.mem_append.2 (Or.inr (by simp))
    refine ⟨hmem, ?_⟩
    intro ctxArgs2 fe2 inv2 ar2 sr2
    rw [hstuck]
    have hm2 : userId ∈ g ++ [userId] :=
      List.mem_append.2 (Or.inr (by simp))
    unfold generate_song
    rw [if_pos hm2]

/-- C7 (witness): with user 7's marker set, a second request is answered
busy with the guard unchanged; from an empty guard, a timed-out
generation whose announcement went through leaves user 7 unmarked; from
an empty guard, a request whose announcement raised leaves user 7
marked. -/
theorem concurrency_guard_per_actor_witness :
    generate_song [7] 7 ["nova", "beat"] (fun _ => false)
      Invocation.timedOut none none = ([7], BotReply.busy) ∧
    7 ∉ (generate_song [] 7 ["nova", "beat"] (fun _ => false)
      Invocation.timedOut none none).1 ∧
    7 ∈ (generate_song [] 7 ["nova", "beat"] (fun _ => false)
      Invocation.timedOut (some "boom") none).1 :=
  ⟨(concurrency_guard_per_actor [7] 7 ["nova", "beat"] (fun _ => false)
      Invocation.timedOut none none "boom").1 (by decide),
   (concurrency_guard_per_actor [] 7 ["nova", "beat"] (fun _ => false)
      Invocation.timedOut none none "boom").2.1 (by decide),
   ((concurrency_guard_per_actor [] 7 ["nova", "beat"] (fun _ => false)
      Invocation.timedOut (some "boom") none "boom").2.2 (by decide) rfl
      (by decide)).1⟩

end MusicPlanner
